import Mathlib

/-!
Verification development for the IVIM (Intravoxel Incoherent Motion) model
fitting code in `dipy/reconst/ivim.py`.

The Python source is shallowly embedded here:

* numpy N-dimensional arrays (as used by `IvimFit.__getitem__` and the
  parameter accessors) are embedded as the nested inductive `NDA`, with
  numpy basic indexing (integer indices and `slice(None)` full-axis
  selectors) embedded as `NDA.index`; an out-of-range or over-deep index
  yields `none` (numpy raises `IndexError` there).
* Python floats are embedded as real numbers `ℝ`.
* The external collaborators that the source calls but that are not part
  of this repository (numpy's degree-1 `polyfit`, scipy's bounded
  `least_squares`) are modelled from the specification of their
  interfaces; each such definition carries a doc comment starting with
  `Modelled from the spec:`.
* Fallible code returns `Option` / `Except`.
-/

set_option autoImplicit false

/-! ### Embedding of numpy N-dimensional arrays (for `IvimFit`) -/

/-- A numpy N-dimensional array over scalars of type `α`, embedded as a
nested list structure.  `scalar x` is a 0-d array; `arr xs` stacks the
subarrays `xs` along a new leading axis. -/
inductive NDA (α : Type) where
  | scalar (x : α)
  | arr (xs : List (NDA α))

/-- `ndarray.ndim`: the number of axes.  As in numpy (for well-formed,
rectangular data) the depth is read off along the first elements. -/
def NDA.ndim {α : Type} : NDA α → Nat
  | .scalar _ => 0
  | .arr [] => 1
  | .arr (a :: _) => 1 + a.ndim

/-- `ndarray.shape`, read off along the first elements as in numpy for
rectangular data. -/
def NDA.shape {α : Type} : NDA α → List Nat
  | .scalar _ => []
  | .arr [] => [0]
  | .arr (a :: as) => (as.length + 1) :: a.shape

mutual

/-- Decides whether an `NDA` is rectangular with the given shape. -/
def NDA.hasShapeB {α : Type} : NDA α → List Nat → Bool
  | .scalar _, [] => true
  | .scalar _, _ :: _ => false
  | .arr _, [] => false
  | .arr xs, n :: rest => (xs.length == n) && NDA.allShapeB xs rest

/-- All arrays in the list are rectangular with the given shape. -/
def NDA.allShapeB {α : Type} : List (NDA α) → List Nat → Bool
  | [], _ => true
  | a :: as, s => a.hasShapeB s && NDA.allShapeB as s

end

/-- One element of a numpy basic-indexing tuple: an integer index or the
full-axis selector `slice(None)` (written `:` in Python). -/
inductive Idx where
  | int (i : Nat)
  | all

mutual

/-- numpy basic indexing `a[t]` for a tuple `t` of integer indices and
full-axis slices.  `none` models an `IndexError` (index out of range, or
more index elements than axes). -/
def NDA.index {α : Type} : NDA α → List Idx → Option (NDA α)
  | a, [] => some a
  | .scalar _, _ :: _ => none
  | .arr xs, .int i :: rest => NDA.indexInt xs i rest
  | .arr xs, .all :: rest => (NDA.indexAll xs rest).map NDA.arr

/-- Integer indexing along the leading axis followed by indexing the
selected subarray with the remaining tuple. -/
def NDA.indexInt {α : Type} : List (NDA α) → Nat → List Idx → Option (NDA α)
  | [], _, _ => none
  | a :: _, 0, rest => NDA.index a rest
  | _ :: as, i + 1, rest => NDA.indexInt as i rest

/-- A full-axis slice: index every subarray with the remaining tuple. -/
def NDA.indexAll {α : Type} : List (NDA α) → List Idx → Option (List (NDA α))
  | [], _ => some []
  | a :: as, rest =>
    match NDA.index a rest, NDA.indexAll as rest with
    | some b, some bs => some (b :: bs)
    | _, _ => none

end

/-- A Python index argument as received by `IvimFit.__getitem__`: either a
single non-tuple index or a tuple of indices. -/
inductive PyIndex where
  | single (i : Idx)
  | tuple (t : List Idx)

/-- `IvimFit.__getitem__` acting on the stored parameter array
`model_params` (the returned `IvimFit` wraps exactly this array, so the
array is the observable).  Following the source: a non-tuple index is
wrapped into a 1-tuple with no dimensionality check; a tuple index of
length `≥ model_params.ndim` raises `IndexError` (`none`); otherwise the
index is padded with full-axis selectors up to `ndim`. -/
def IvimFit.getitem {α : Type} (model_params : NDA α) (index : PyIndex) :
    Option (NDA α) :=
  let N := model_params.ndim
  match index with
  | .single j => model_params.index ([j] ++ List.replicate (N - 1) Idx.all)
  | .tuple t =>
    if t.length ≥ N then none
    else model_params.index (t ++ List.replicate (N - t.length) Idx.all)

/-- `IvimFit.S0_predicted`: `model_params[..., 0]`.  numpy's ellipsis
expands to `ndim - 1` full-axis selectors in front of the final integer
index. -/
def IvimFit.S0_predicted {α : Type} (model_params : NDA α) : Option (NDA α) :=
  model_params.index (List.replicate (model_params.ndim - 1) Idx.all ++ [Idx.int 0])

/-- `IvimFit.perfusion_fraction`: `model_params[..., 1]`. -/
def IvimFit.perfusion_fraction {α : Type} (model_params : NDA α) : Option (NDA α) :=
  model_params.index (List.replicate (model_params.ndim - 1) Idx.all ++ [Idx.int 1])

/-- `IvimFit.D_star`: `model_params[..., 2]`. -/
def IvimFit.D_star {α : Type} (model_params : NDA α) : Option (NDA α) :=
  model_params.index (List.replicate (model_params.ndim - 1) Idx.all ++ [Idx.int 2])

/-- `IvimFit.D`: `model_params[..., 3]`. -/
def IvimFit.D {α : Type} (model_params : NDA α) : Option (NDA α) :=
  model_params.index (List.replicate (model_params.ndim - 1) Idx.all ++ [Idx.int 3])

/-! ### Embedding of the IVIM signal model and residuals (`ivim.py` top level) -/

/-- `GradientTable` (external collaborator, read-only): the fields of the
gradient-table object that `ivim.py` reads.  `bvals` is the ordered
sequence of b-values; `b0s_mask` is the boolean mask identifying b0
acquisitions.  The gradient directions `bvecs` are only forwarded to the
sub-table constructor in the source and never influence any value the
claims are about, so they are not carried. -/
structure GradientTable where
  bvals : List ℝ
  b0s_mask : List Bool

/-- `ivim_prediction(params, gtab)`:
`S = S0 * (f * exp(-b * D_star) + (1 - f) * exp(-b * D))` over all
b-values.  The parameter array `[S0, f, D_star, D]` is embedded as a
function on `Fin 4`.  (The unused keyword argument `S0=1.` of the source
is dropped: the source overwrites it with `params[0]`.) -/
noncomputable def ivim_prediction (params : Fin 4 → ℝ) (gtab : GradientTable) :
    List ℝ :=
  gtab.bvals.map (fun b =>
    params 0 * (params 1 * Real.exp (-b * params 2) +
      (1 - params 1) * Real.exp (-b * params 3)))

/-- `_ivim_error(params, gtab, signal) = signal - ivim_prediction(params, gtab)`
(elementwise over aligned vectors). -/
noncomputable def ivim_error (params : Fin 4 → ℝ) (gtab : GradientTable)
    (signal : List ℝ) : List ℝ :=
  List.zipWith (fun s p => s - p) signal (ivim_prediction params gtab)

/-- `D_star_prediction(D_star, gtab, other_params)` with
`other_params = (S0, f, D)` fixed. -/
noncomputable def D_star_prediction (D_star : ℝ) (gtab : GradientTable)
    (other_params : ℝ × ℝ × ℝ) : List ℝ :=
  gtab.bvals.map (fun b =>
    other_params.1 * (other_params.2.1 * Real.exp (-b * D_star) +
      (1 - other_params.2.1) * Real.exp (-b * other_params.2.2)))

/-- `D_star_error(D_star, gtab, signal, other_params)
= signal - D_star_prediction(D_star, gtab, other_params)`. -/
noncomputable def D_star_error (D_star : ℝ) (gtab : GradientTable)
    (signal : List ℝ) (other_params : ℝ × ℝ × ℝ) : List ℝ :=
  List.zipWith (fun s p => s - p) signal (D_star_prediction D_star gtab other_params)

/-! ### Bounds, the external solvers and the external linear regression -/

/-- A pair of per-parameter bound arrays `(lower, upper)` for the four
IVIM parameters.  numpy's `np.inf` upper bound is embedded as `none`. -/
structure BoundsPair where
  lo : Fin 4 → ℝ
  hi : Fin 4 → Option ℝ

/-- The default bounds installed by `IvimModel.__init__`:
`([0., 0., 0., 0.], [np.inf, 1., 0.05, 0.005])`. -/
noncomputable def defaultBounds : BoundsPair where
  lo := ![0, 0, 0, 0]
  hi := ![none, some 1, some 0.05, some 0.005]

/-- The hardcoded envelope of the `self.bounds is None` branch of `fit`:
`[(0., 0., 0., 0.), (np.inf, 1., 0.01, 0.001)]`. -/
noncomputable def boundsCheckDefault : BoundsPair where
  lo := ![0, 0, 0, 0]
  hi := ![none, some 1, some 0.01, some 0.001]

/-- A parameter vector lies within a bounds pair, inclusive of the
endpoints (an absent upper bound, `np.inf`, constrains nothing). -/
def inBounds (bp : BoundsPair) (p : Fin 4 → ℝ) : Prop :=
  ∀ i : Fin 4, bp.lo i ≤ p i ∧ ∀ u : ℝ, bp.hi i = some u → p i ≤ u

/-- One component of the first `np.where` line of `IvimModel.fit`:
`np.where(x0 > bounds_check[0], x0, bounds_check[0])` keeps `x` where it
exceeds the lower bound and replaces it by the lower bound otherwise. -/
noncomputable def whereLower (lo x : ℝ) : ℝ :=
  if lo < x then x else lo

/-- One component of the second `np.where` line of `IvimModel.fit`:
`np.where(x0 < bounds_check[1], x0, bounds_check[1])` keeps `x` where it
is below the upper bound and replaces it by the upper bound otherwise
(`x < np.inf` always holds, so an infinite upper bound keeps `x`). -/
noncomputable def whereUpper (hi : Option ℝ) (x : ℝ) : ℝ :=
  match hi with
  | none => x
  | some u => if x < u then x else u

/-- One component of the two `np.where` clamps in `IvimModel.fit`. -/
noncomputable def clampComp (lo : ℝ) (hi : Option ℝ) (x : ℝ) : ℝ :=
  whereUpper hi (whereLower lo x)

/-- The elementwise clamp of a parameter vector into a bounds pair, as
performed by the two `np.where` lines of `IvimModel.fit`. -/
noncomputable def clampB (bp : BoundsPair) (x0 : Fin 4 → ℝ) : Fin 4 → ℝ :=
  fun i => clampComp (bp.lo i) (bp.hi i) (x0 i)

/-- Error raised out of the per-voxel fit. -/
inductive FitError where
  | underdetermined

/-- Modelled from the spec: the external linear-regression collaborator
`np.polyfit(x, y, 1)` (numpy, not part of this repository).  The spec
describes it as "ordinary least-squares fit of a degree-1 polynomial
given paired (x, y) sequences of equal length ≥ 2", and requires the
under-determined case (fewer than 2 points) to fail with a fitting
error.  Returns `(slope, intercept)` of the least-squares line. -/
noncomputable def polyfit1 (x y : List ℝ) : Except FitError (ℝ × ℝ) :=
  if x.length < 2 then .error .underdetermined
  else
    let n : ℝ := x.length
    let sx := x.sum
    let sy := y.sum
    let sxy := ((x.zip y).map (fun p => p.1 * p.2)).sum
    let sxx := (x.map (fun a => a * a)).sum
    let slope := (n * sxy - sx * sy) / (n * sxx - sx * sx)
    let intercept := (sy - slope * sx) / n
    .ok (slope, intercept)

/-- Modelled from the spec: the external bounded scalar nonlinear
least-squares solver (`scipy.optimize.least_squares` on one variable,
not part of this repository), used by `estimate_D_star` with starting
guess `0.0005` and bounds `(0., 0.01)`.  The spec requires the solver to
support box constraints, so the solution must lie within the bounds; the
source's tolerance/iteration options are absorbed into the oracle. -/
structure Solver1 where
  solve : (ℝ → List ℝ) → ℝ → ℝ → ℝ → ℝ
  solve_mem : ∀ (r : ℝ → List ℝ) (x0 lo hi : ℝ), lo ≤ hi →
    lo ≤ solve r x0 lo hi ∧ solve r x0 lo hi ≤ hi

/-- Modelled from the spec: the external bounded four-parameter nonlinear
least-squares solver (`scipy.optimize.least_squares`, not part of this
repository), as called by `IvimModel._leastsq`.  The spec requires box
constraints: started from a feasible initial guess, the returned vector
lies within the bounds (scipy additionally rejects infeasible initial
guesses, which is why `fit` clamps `x0` first).  Tolerance/iteration
options are absorbed into the oracle. -/
structure Solver4 where
  solve : ((Fin 4 → ℝ) → List ℝ) → (Fin 4 → ℝ) → Option BoundsPair → (Fin 4 → ℝ)
  solve_mem : ∀ (r : (Fin 4 → ℝ) → List ℝ) (x0 : Fin 4 → ℝ) (bp : BoundsPair),
    inBounds bp x0 → inBounds bp (solve r x0 (some bp))

/-- A conforming scalar solver that returns the lower bound. -/
noncomputable def trivialSolver1 : Solver1 where
  solve := fun _ _ lo _ => lo
  solve_mem := fun _ _ lo _ h => ⟨le_refl lo, h⟩

/-- A conforming four-parameter solver that returns its initial guess
unchanged (it makes the clamped `x0` passed by `fit` observable). -/
noncomputable def echoSolver4 : Solver4 where
  solve := fun _ x0 _ => x0
  solve_mem := fun _ _ _ h => h

/-! ### Embedding of `IvimModel` -/

/-- The state of an `IvimModel` instance after `__init__`.  The
`options` dict (`gtol`/`ftol`/`eps`/`maxiter`) of the source is only
forwarded to the external solvers and is absorbed into the solver
oracles. -/
structure IvimModel where
  gtab : GradientTable
  split_b : ℝ
  bounds : Option BoundsPair
  tol : ℝ
  method : String

/-- The message of the `ValueError` raised by `IvimModel.__init__` when
the gradient table has no b0 measurement (two concatenated fragments in
the source). -/
def noB0Message : String :=
  "No measured signal at bvalue == 0.The IVIM model requires signal measured at 0 bvalue"

/-- `IvimModel.__init__(gtab, split_b, method, bounds, tol, options)` on a
platform where bounded least-squares is available (`SCIPY_LESS_0_17` is
`False`): raises `ValueError` if `gtab.b0s_mask` has no `True` entry;
otherwise stores the configuration — and, because `SCIPY_LESS_0_17 and
self.bounds is not None` is `False`, the `else` branch unconditionally
overwrites `self.bounds` with the default pair, regardless of the
`bounds` argument. -/
noncomputable def IvimModel.init (gtab : GradientTable) (split_b : ℝ)
    (method : String) (bounds : Option BoundsPair) (tol : ℝ) :
    Except String IvimModel :=
  if !(gtab.b0s_mask.any id) then
    .error noB0Message
  else
    -- self.split_b, self.bounds (argument), self.tol, self.method are stored,
    -- then self.bounds is overwritten in the `else` of the scipy-version check.
    let _selfBounds := bounds
    .ok { gtab := gtab, split_b := split_b, bounds := some defaultBounds,
          tol := tol, method := method }

/-- `IvimModel.estimate_S0_prime_D(data)`: degree-1 regression of
`-log(signal)` against b-value over the measurements with
`bvals >= split_b`; returns `(S0_prime, D) = (exp(-intercept), slope)`. -/
noncomputable def IvimModel.estimate_S0_prime_D (m : IvimModel)
    (data : List ℝ) : Except FitError (ℝ × ℝ) := do
  let res ← polyfit1
    (((m.gtab.bvals.zip data).filter
      (fun p => decide (m.split_b ≤ p.1))).map Prod.fst)
    (((m.gtab.bvals.zip data).filter
      (fun p => decide (m.split_b ≤ p.1))).map (fun p => -Real.log p.2))
  return (Real.exp (-res.2), res.1)

/-- `IvimModel.estimate_S0_D_star_prime(data)`: degree-1 regression of
`-log(signal)` against b-value over the measurements with
`bvals < split_b`; returns `(S0, D_star_prime) = (exp(-intercept), slope)`. -/
noncomputable def IvimModel.estimate_S0_D_star_prime (m : IvimModel)
    (data : List ℝ) : Except FitError (ℝ × ℝ) := do
  let res ← polyfit1
    (((m.gtab.bvals.zip data).filter
      (fun p => decide (p.1 < m.split_b))).map Prod.fst)
    (((m.gtab.bvals.zip data).filter
      (fun p => decide (p.1 < m.split_b))).map (fun p => -Real.log p.2))
  return (Real.exp (-res.2), res.1)

/-- `IvimModel.estimate_D_star(data, other_params)`: the bounded scalar
least-squares fit of `D_star_error`, starting guess `0.0005`, bounds
`(0., 0.01)`. -/
noncomputable def IvimModel.estimate_D_star (m : IvimModel) (s1 : Solver1)
    (data : List ℝ) (other_params : ℝ × ℝ × ℝ) : ℝ :=
  s1.solve (fun Ds => D_star_error Ds m.gtab data other_params) 0.0005 0 0.01

/-- `IvimModel._leastsq(data, x0)`: the full four-parameter bounded
least-squares refinement of `_ivim_error`, with bounds `self.bounds`. -/
noncomputable def IvimModel.leastsq (m : IvimModel) (s4 : Solver4)
    (data : List ℝ) (x0 : Fin 4 → ℝ) : Fin 4 → ℝ :=
  s4.solve (fun p => ivim_error p m.gtab data) x0 m.bounds

/-- The staged initializer inside `IvimModel.fit` (lines 239-244 of the
source): `S0_prime, D` from the high-b regression, `S0` from the low-b
regression, `f = 1 - S0_prime/S0`, and `D_star` from the scalar
sub-fit; result `x0 = np.array([S0, f, D_star, D])`. -/
noncomputable def IvimModel.stagedX0 (m : IvimModel) (s1 : Solver1)
    (data : List ℝ) : Except FitError (Fin 4 → ℝ) := do
  let p1 ← m.estimate_S0_prime_D data
  let p2 ← m.estimate_S0_D_star_prime data
  let S0_prime := p1.1
  let D := p1.2
  let S0 := p2.1
  let f := 1 - S0_prime / S0
  let D_star := m.estimate_D_star s1 data (S0, f, D)
  return ![S0, f, D_star, D]

/-- `IvimModel.fit(data)` for a single voxel: the staged initializer
produces `x0`; if `method == 'one_stage'` this `x0` is returned directly;
otherwise `bounds_check` is `self.bounds` when not `None` (else the
hardcoded envelope), `x0` is clamped elementwise into `bounds_check` by
the two `np.where` lines, and `_leastsq` refines the clamped `x0`. -/
noncomputable def IvimModel.fit (m : IvimModel) (s1 : Solver1) (s4 : Solver4)
    (data : List ℝ) : Except FitError (Fin 4 → ℝ) := do
  let x0 ← m.stagedX0 s1 data
  if m.method = "one_stage" then
    return x0
  else
    let bounds_check := m.bounds.getD boundsCheckDefault
    return m.leastsq s4 data (clampB bounds_check x0)

/-! ### Concrete inputs used by closed witnesses and counterexamples -/

/-- A (1, 1, 1, 4)-shaped parameter array over `Nat` scalars. -/
def c5Arr : NDA Nat :=
  .arr [.arr [.arr [.arr [.scalar 1, .scalar 2, .scalar 3, .scalar 4]]]]

/-- A 1-dimensional single-voxel parameter array (shape `(4,)`). -/
def oneDArr : NDA Nat := .arr [.scalar 7, .scalar 8, .scalar 9, .scalar 11]

/-- A (2, 1, 1, 4)-shaped parameter array over `Nat` scalars. -/
def c9Arr : NDA Nat :=
  .arr [.arr [.arr [.arr [.scalar 1, .scalar 2, .scalar 3, .scalar 4]]],
        .arr [.arr [.arr [.scalar 5, .scalar 6, .scalar 7, .scalar 8]]]]

/-- A gradient table with one b0 measurement and b-values on both sides of
the default split threshold 200. -/
noncomputable def gtabW : GradientTable :=
  { bvals := [0, 100, 300, 400], b0s_mask := [true, false, false, false] }

/-- A gradient table with no b0 measurement. -/
noncomputable def gtabNoB0 : GradientTable :=
  { bvals := [100, 300, 400], b0s_mask := [false, false, false] }

/-- A gradient table with only one measurement below the split threshold. -/
noncomputable def gtabLow1 : GradientTable :=
  { bvals := [0, 300, 400], b0s_mask := [true, false, false] }

/-- The model `IvimModel.init gtabW 200 "one_stage" none 1` constructs. -/
noncomputable def mOne : IvimModel :=
  { gtab := gtabW, split_b := 200, bounds := some defaultBounds, tol := 1,
    method := "one_stage" }

/-- The model `IvimModel.init gtabW 200 "two_stage" none 1` constructs. -/
noncomputable def mTwo : IvimModel :=
  { gtab := gtabW, split_b := 200, bounds := some defaultBounds, tol := 1,
    method := "two_stage" }

/-- The model `IvimModel.init gtabLow1 200 "two_stage" none 1` constructs. -/
noncomputable def mLow1 : IvimModel :=
  { gtab := gtabLow1, split_b := 200, bounds := some defaultBounds, tol := 1,
    method := "two_stage" }

/-- A noiseless constant signal. -/
noncomputable def dataOnes : List ℝ := [1, 1, 1, 1]

/-- A three-measurement constant signal for `gtabLow1`. -/
noncomputable def dataThree : List ℝ := [1, 1, 1]

/-- The staged initializer output on `dataD3` (with `trivialSolver1`):
`f` is negative there and `D = 0.003`. -/
noncomputable def d3X0 : Fin 4 → ℝ := ![1, 1 - Real.exp (9 / 10), 0, 0.003]

/-- A signal whose high-b tail grows like `exp 3`: the staged initializer
computes `S0_prime = exp 3 > S0 = 1`, hence a negative `f`. -/
noncomputable def dataNegF : List ℝ := [1, 1, Real.exp 3, Real.exp 3]

/-- A signal whose high-b regression has slope `D = 0.003`, between the
hardcoded envelope upper bound `0.001` and the default solver upper bound
`0.005`. -/
noncomputable def dataD3 : List ℝ := [1, 1, 1, Real.exp (-(3 / 10))]

/-- The staged initializer output on `dataNegF` (with `trivialSolver1`). -/
noncomputable def negFParams : Fin 4 → ℝ := ![1, 1 - Real.exp 3, 0, 0]

/-- The fit output on `dataD3` under `two_stage` with `echoSolver4`. -/
noncomputable def d3Params : Fin 4 → ℝ := ![1, 0, 0, 0.003]

/-- The fit output on `dataOnes` under `two_stage` with `echoSolver4`. -/
noncomputable def onesParams : Fin 4 → ℝ := ![1, 0, 0, 0]

/-- A custom bounds pair distinct from `defaultBounds`, to pass to the
constructor. -/
noncomputable def customBounds : BoundsPair :=
  { lo := ![0, 0, 0, 0], hi := ![some 5, some 5, some 5, some 5] }

/-! ### Helper lemmas about the array embedding -/

theorem NDA.index_nil {α : Type} (a : NDA α) : a.index [] = some a := by
  cases a <;> rfl

theorem NDA.allShapeB_mem {α : Type} (s : List Nat) :
    ∀ (xs : List (NDA α)), NDA.allShapeB xs s = true →
      ∀ a ∈ xs, a.hasShapeB s = true
  | [], _, a, ha => by simp at ha
  | b :: bs, h, a, ha => by
    simp only [NDA.allShapeB, Bool.and_eq_true] at h
    rcases List.mem_cons.mp ha with rfl | ha2
    · exact h.1
    · exact NDA.allShapeB_mem s bs h.2 a ha2

theorem NDA.indexInt_eq {α : Type} :
    ∀ (xs : List (NDA α)) (i : Nat) (r : List Idx) (a : NDA α),
      xs[i]? = some a → NDA.indexInt xs i r = a.index r
  | [], i, _, _ => by intro h; simp at h
  | b :: bs, 0, r, a => by
    intro h
    simp only [List.getElem?_cons_zero, Option.some.injEq] at h
    subst h
    rfl
  | b :: bs, i + 1, r, a => by
    intro h
    simp only [List.getElem?_cons_succ] at h
    exact NDA.indexInt_eq bs i r a h

theorem NDA.indexAll_id {α : Type} (r : List Idx) :
    ∀ (xs : List (NDA α)), (∀ a ∈ xs, a.index r = some a) →
      NDA.indexAll xs r = some xs
  | [], _ => rfl
  | b :: bs, h => by
    have hb := h b (List.mem_cons_self b bs)
    have hbs := NDA.indexAll_id r bs (fun a ha => h a (List.mem_cons_of_mem _ ha))
    simp only [NDA.indexAll, hb, hbs]

theorem NDA.indexAll_spec {α : Type} (r : List Idx) :
    ∀ (xs : List (NDA α)), (∀ a ∈ xs, ∃ b, a.index r = some b) →
      ∃ ys : List (NDA α), NDA.indexAll xs r = some ys ∧
        ys.length = xs.length ∧
        ∀ (i : Nat) (a : NDA α), xs[i]? = some a →
          ∃ b, a.index r = some b ∧ ys[i]? = some b
  | [], _ => ⟨[], rfl, rfl, by intro i a h; simp at h⟩
  | x :: xs, h => by
    obtain ⟨b, hb⟩ := h x (List.mem_cons_self x xs)
    obtain ⟨ys, hys, hlen, hget⟩ :=
      NDA.indexAll_spec r xs (fun a ha => h a (List.mem_cons_of_mem _ ha))
    refine ⟨b :: ys, ?_, by simp [hlen], ?_⟩
    · simp only [NDA.indexAll, hb, hys]
    · intro i a hia
      cases i with
      | zero =>
        simp only [List.getElem?_cons_zero, Option.some.injEq] at hia
        subst hia
        exact ⟨b, hb, by simp⟩
      | succ i =>
        simp only [List.getElem?_cons_succ] at hia
        obtain ⟨c, hc, hyc⟩ := hget i a hia
        exact ⟨c, hc, by simpa using hyc⟩

theorem NDA.index_all_one {α : Type} (a : NDA α) (m : Nat)
    (h : a.hasShapeB [m] = true) : a.index [Idx.all] = some a := by
  cases a with
  | scalar x => simp [NDA.hasShapeB] at h
  | arr xs =>
    have hmem : ∀ c ∈ xs, c.index ([] : List Idx) = some c :=
      fun c _ => NDA.index_nil c
    simp only [NDA.index, NDA.indexAll_id [] xs hmem, Option.map_some']

theorem NDA.index_all_two {α : Type} (a : NDA α) (n m : Nat)
    (h : a.hasShapeB [n, m] = true) : a.index [Idx.all, Idx.all] = some a := by
  cases a with
  | scalar x => simp [NDA.hasShapeB] at h
  | arr xs =>
    simp only [NDA.hasShapeB, Bool.and_eq_true, beq_iff_eq] at h
    have hsh := NDA.allShapeB_mem [m] xs h.2
    have hmem : ∀ c ∈ xs, c.index [Idx.all] = some c :=
      fun c hc => NDA.index_all_one c m (hsh c hc)
    simp only [NDA.index, NDA.indexAll_id [Idx.all] xs hmem, Option.map_some']

theorem NDA.index_all_three {α : Type} (a : NDA α) (n m k : Nat)
    (h : a.hasShapeB [n, m, k] = true) :
    a.index [Idx.all, Idx.all, Idx.all] = some a := by
  cases a with
  | scalar x => simp [NDA.hasShapeB] at h
  | arr xs =>
    simp only [NDA.hasShapeB, Bool.and_eq_true, beq_iff_eq] at h
    have hsh := NDA.allShapeB_mem [m, k] xs h.2
    have hmem : ∀ c ∈ xs, c.index [Idx.all, Idx.all] = some c :=
      fun c hc => NDA.index_all_two c m k (hsh c hc)
    simp only [NDA.index, NDA.indexAll_id [Idx.all, Idx.all] xs hmem,
      Option.map_some']

theorem NDA.index_int_one {α : Type} (a : NDA α) (k j : Nat)
    (h : a.hasShapeB [k] = true) (hj : j < k) :
    ∃ b, a.index [Idx.int j] = some b := by
  cases a with
  | scalar x => simp [NDA.hasShapeB] at h
  | arr xs =>
    simp only [NDA.hasShapeB, Bool.and_eq_true, beq_iff_eq] at h
    have hjlen : j < xs.length := by omega
    obtain ⟨c, hc⟩ : ∃ c, xs[j]? = some c :=
      ⟨xs[j], List.getElem?_eq_getElem hjlen⟩
    refine ⟨c, ?_⟩
    simp only [NDA.index]
    rw [NDA.indexInt_eq xs j [] c hc]
    exact NDA.index_nil c

theorem NDA.index_all_int_two {α : Type} (a : NDA α) (m k j : Nat)
    (h : a.hasShapeB [m, k] = true) (hj : j < k) :
    ∃ b, a.index [Idx.all, Idx.int j] = some b := by
  cases a with
  | scalar x => simp [NDA.hasShapeB] at h
  | arr xs =>
    simp only [NDA.hasShapeB, Bool.and_eq_true, beq_iff_eq] at h
    have hsh := NDA.allShapeB_mem [k] xs h.2
    have hmem : ∀ c ∈ xs, ∃ b, c.index [Idx.int j] = some b :=
      fun c hc => NDA.index_int_one c k j (hsh c hc) hj
    obtain ⟨ys, hys, -, -⟩ := NDA.indexAll_spec [Idx.int j] xs hmem
    exact ⟨NDA.arr ys, by simp only [NDA.index, hys, Option.map_some']⟩

theorem NDA.index_all_all_int_three {α : Type} (a : NDA α) (n m k j : Nat)
    (h : a.hasShapeB [n, m, k] = true) (hj : j < k) :
    ∃ b, a.index [Idx.all, Idx.all, Idx.int j] = some b := by
  cases a with
  | scalar x => simp [NDA.hasShapeB] at h
  | arr xs =>
    simp only [NDA.hasShapeB, Bool.and_eq_true, beq_iff_eq] at h
    have hsh := NDA.allShapeB_mem [m, k] xs h.2
    have hmem : ∀ c ∈ xs, ∃ b, c.index [Idx.all, Idx.int j] = some b :=
      fun c hc => NDA.index_all_int_two c m k j (hsh c hc) hj
    obtain ⟨ys, hys, -, -⟩ := NDA.indexAll_spec [Idx.all, Idx.int j] xs hmem
    exact ⟨NDA.arr ys, by simp only [NDA.index, hys, Option.map_some']⟩

theorem NDA.ndim_shape_one {α : Type} (a : NDA α) (m : Nat)
    (h : a.hasShapeB [m] = true) : a.ndim = 1 ∧ a.shape = [m] := by
  cases a with
  | scalar x => simp [NDA.hasShapeB] at h
  | arr xs =>
    simp only [NDA.hasShapeB, Bool.and_eq_true, beq_iff_eq] at h
    cases xs with
    | nil =>
      simp only [List.length_nil] at h
      exact ⟨rfl, by simp [NDA.shape, ← h.1]⟩
    | cons c cs =>
      have hc := NDA.allShapeB_mem [] (c :: cs) h.2 c (List.mem_cons_self c cs)
      cases c with
      | scalar y =>
        refine ⟨rfl, ?_⟩
        simp only [NDA.shape]
        simp only [List.length_cons] at h
        simp [h.1]
      | arr ds => simp [NDA.hasShapeB] at hc

theorem NDA.ndim_shape_two {α : Type} (a : NDA α) (n m : Nat)
    (h : a.hasShapeB [n, m] = true) (hn : 0 < n) :
    a.ndim = 2 ∧ a.shape = [n, m] := by
  cases a with
  | scalar x => simp [NDA.hasShapeB] at h
  | arr xs =>
    simp only [NDA.hasShapeB, Bool.and_eq_true, beq_iff_eq] at h
    cases xs with
    | nil => simp only [List.length_nil] at h; omega
    | cons c cs =>
      have hc := NDA.allShapeB_mem [m] (c :: cs) h.2 c (List.mem_cons_self c cs)
      obtain ⟨hnd, hsh⟩ := NDA.ndim_shape_one c m hc
      constructor
      · simp [NDA.ndim, hnd]
      · simp only [NDA.shape, hsh]
        simp only [List.length_cons] at h
        simp [h.1]

theorem NDA.ndim_shape_three {α : Type} (a : NDA α) (n m k : Nat)
    (h : a.hasShapeB [n, m, k] = true) (hn : 0 < n) (hm : 0 < m) :
    a.ndim = 3 ∧ a.shape = [n, m, k] := by
  cases a with
  | scalar x => simp [NDA.hasShapeB] at h
  | arr xs =>
    simp only [NDA.hasShapeB, Bool.and_eq_true, beq_iff_eq] at h
    cases xs with
    | nil => simp only [List.length_nil] at h; omega
    | cons c cs =>
      have hc := NDA.allShapeB_mem [m, k] (c :: cs) h.2 c (List.mem_cons_self c cs)
      obtain ⟨hnd, hsh⟩ := NDA.ndim_shape_two c m k hc hm
      constructor
      · simp [NDA.ndim, hnd]
      · simp only [NDA.shape, hsh]
        simp only [List.length_cons] at h
        simp [h.1]

theorem NDA.ndim_four {α : Type} (a : NDA α) (X Y Z : Nat)
    (h : a.hasShapeB [X, Y, Z, 4] = true) (hX : 0 < X) (hY : 0 < Y)
    (hZ : 0 < Z) : a.ndim = 4 := by
  cases a with
  | scalar x => simp [NDA.hasShapeB] at h
  | arr xs =>
    simp only [NDA.hasShapeB, Bool.and_eq_true, beq_iff_eq] at h
    cases xs with
    | nil => simp only [List.length_nil] at h; omega
    | cons c cs =>
      have hc := NDA.allShapeB_mem [Y, Z, 4] (c :: cs) h.2 c (List.mem_cons_self c cs)
      obtain ⟨hnd, -⟩ := NDA.ndim_shape_three c Y Z 4 hc hY hZ
      simp [NDA.ndim, hnd]

/-! ### Claims C5 and C9: the result container's indexing -/

/-- C5 (amended): `IvimFit.__getitem__` rejects with an `IndexError` every
*tuple* index whose length is at least the dimensionality of the stored
parameter array; a non-tuple index is wrapped into a 1-tuple without that
check, so in particular a single non-tuple index on a 1-dimensional
parameter array does not raise — it indexes into the parameter axis. -/
theorem C5_getitem_tuple_rejected {α : Type} (params : NDA α) (t : List Idx)
    (j : Idx) (h : params.ndim ≤ t.length) :
    IvimFit.getitem params (.tuple t) = none ∧
    IvimFit.getitem params (.single j) =
      params.index (j :: List.replicate (params.ndim - 1) Idx.all) := by
  refine ⟨?_, ?_⟩
  · simp [IvimFit.getitem, h]
  · simp [IvimFit.getitem]

/-- C5 witness: a 4-tuple index on a (1, 1, 1, 4)-shaped parameter array
is rejected, and the single-index equation holds there. -/
theorem C5_getitem_tuple_rejected_witness :
    c5Arr.ndim ≤ ([Idx.int 0, Idx.int 0, Idx.int 0, Idx.int 0] : List Idx).length ∧
    (IvimFit.getitem c5Arr (.tuple [Idx.int 0, Idx.int 0, Idx.int 0, Idx.int 0]) = none ∧
     IvimFit.getitem c5Arr (.single (Idx.int 0)) =
       c5Arr.index (Idx.int 0 :: List.replicate (c5Arr.ndim - 1) Idx.all)) :=
  ⟨by decide, C5_getitem_tuple_rejected c5Arr _ (Idx.int 0) (by decide)⟩

/-- C5 counterexample: the 1-dimensional single-voxel parameter array
`oneDArr` has ndim 1, and indexing it with the single (non-tuple) index
`2` — an index of dimensionality 1 ≥ 1 — does not raise an `IndexError`:
it returns the scalar at position 2 of the parameter axis.  This refutes
the claim that every index of dimensionality ≥ the array's dimensionality
is rejected. -/
theorem C5_counterexample :
    oneDArr.ndim = 1 ∧
    IvimFit.getitem oneDArr (.single (Idx.int 2)) = some (NDA.scalar 9) :=
  ⟨rfl, rfl⟩

/-- C9: on an (X, Y, Z, 4)-shaped parameter array (with Y, Z positive),
every tuple index shorter than the array's dimensionality is padded with
full-axis selectors so the trailing parameter axis is preserved, and
`result[i]` yields a sub-array of shape (Y, Z, 4) whose S0, perfusion
fraction, D_star and D accessors equal the corresponding accessor of the
original array indexed at `i`. -/
theorem C9_getitem_preserves_param_axis {α : Type} (params : NDA α)
    (X Y Z i : Nat) (t : List Idx)
    (hs : params.hasShapeB [X, Y, Z, 4] = true)
    (hY : 0 < Y) (hZ : 0 < Z) (hi : i < X) :
    (t.length < params.ndim →
      IvimFit.getitem params (.tuple t) =
        params.index (t ++ List.replicate (params.ndim - t.length) Idx.all)) ∧
    ∃ q : NDA α, IvimFit.getitem params (.single (Idx.int i)) = some q ∧
      q.shape = [Y, Z, 4] ∧
      IvimFit.S0_predicted q =
        (IvimFit.S0_predicted params).bind (fun s => s.index [Idx.int i]) ∧
      IvimFit.perfusion_fraction q =
        (IvimFit.perfusion_fraction params).bind (fun s => s.index [Idx.int i]) ∧
      IvimFit.D_star q =
        (IvimFit.D_star params).bind (fun s => s.index [Idx.int i]) ∧
      IvimFit.D q =
        (IvimFit.D params).bind (fun s => s.index [Idx.int i]) := by
  have hX : 0 < X := by omega
  have hnd : params.ndim = 4 := NDA.ndim_four params X Y Z hs hX hY hZ
  constructor
  · intro hlt
    have hnge : ¬ (t.length ≥ params.ndim) := by omega
    simp [IvimFit.getitem, hnge]
  · cases params with
    | scalar x => simp [NDA.hasShapeB] at hs
    | arr xs =>
      simp only [NDA.hasShapeB, Bool.and_eq_true, beq_iff_eq] at hs
      have hilen : i < xs.length := by omega
      obtain ⟨q, hq⟩ : ∃ q, xs[i]? = some q :=
        ⟨xs[i], List.getElem?_eq_getElem hilen⟩
      have hqmem : q ∈ xs := List.getElem?_mem hq
      have hqs : q.hasShapeB [Y, Z, 4] = true :=
        NDA.allShapeB_mem _ xs hs.2 q hqmem
      obtain ⟨hqnd, hqsh⟩ := NDA.ndim_shape_three q Y Z 4 hqs hY hZ
      have hrep3 : List.replicate ((4:ℕ) - 1) Idx.all = [Idx.all, Idx.all, Idx.all] := rfl
      have hrep2 : List.replicate ((3:ℕ) - 1) Idx.all = [Idx.all, Idx.all] := rfl
      have key : ∀ j : Nat, j < 4 →
          ((NDA.arr xs).index [Idx.all, Idx.all, Idx.all, Idx.int j]).bind
            (fun s => s.index [Idx.int i]) =
          q.index [Idx.all, Idx.all, Idx.int j] := by
        intro j hj
        have hmem : ∀ a ∈ xs, ∃ b, a.index [Idx.all, Idx.all, Idx.int j] = some b :=
          fun a ha =>
            NDA.index_all_all_int_three a Y Z 4 j (NDA.allShapeB_mem _ xs hs.2 a ha) hj
        obtain ⟨ys, hys, hylen, hyget⟩ := NDA.indexAll_spec _ xs hmem
        obtain ⟨b, hb, hyb⟩ := hyget i q hq
        have houter : (NDA.arr xs).index [Idx.all, Idx.all, Idx.all, Idx.int j]
            = some (NDA.arr ys) := by
          simp only [NDA.index, hys, Option.map_some']
        rw [houter, Option.some_bind]
        show NDA.indexInt ys i [] = q.index [Idx.all, Idx.all, Idx.int j]
        rw [NDA.indexInt_eq ys i [] b hyb, NDA.index_nil b, hb]
      refine ⟨q, ?_, hqsh, ?_, ?_, ?_, ?_⟩
      · have e1 : IvimFit.getitem (NDA.arr xs) (.single (Idx.int i)) =
            NDA.indexInt xs i [Idx.all, Idx.all, Idx.all] := by
          simp only [IvimFit.getitem, hnd, hrep3, List.singleton_append, NDA.index]
        rw [e1, NDA.indexInt_eq xs i _ q hq]
        exact NDA.index_all_three q Y Z 4 hqs
      · simp only [IvimFit.S0_predicted, hqnd, hnd, hrep3, hrep2,
          List.cons_append, List.nil_append]
        exact (key 0 (by norm_num)).symm
      · simp only [IvimFit.perfusion_fraction, hqnd, hnd, hrep3, hrep2,
          List.cons_append, List.nil_append]
        exact (key 1 (by norm_num)).symm
      · simp only [IvimFit.D_star, hqnd, hnd, hrep3, hrep2,
          List.cons_append, List.nil_append]
        exact (key 2 (by norm_num)).symm
      · simp only [IvimFit.D, hqnd, hnd, hrep3, hrep2,
          List.cons_append, List.nil_append]
        exact (key 3 (by norm_num)).symm

/-- C9 witness: the (2, 1, 1, 4)-shaped array `c9Arr` indexed at `1`. -/
theorem C9_getitem_preserves_param_axis_witness :
    c9Arr.hasShapeB [2, 1, 1, 4] = true ∧ (0:Nat) < 1 ∧ (1:Nat) < 2 ∧
    (([Idx.int 1] : List Idx).length < c9Arr.ndim →
      IvimFit.getitem c9Arr (.tuple [Idx.int 1]) =
        c9Arr.index ([Idx.int 1] ++
          List.replicate (c9Arr.ndim - ([Idx.int 1] : List Idx).length) Idx.all)) ∧
    (∃ q : NDA Nat, IvimFit.getitem c9Arr (.single (Idx.int 1)) = some q ∧
      q.shape = [1, 1, 4] ∧
      IvimFit.S0_predicted q =
        (IvimFit.S0_predicted c9Arr).bind (fun s => s.index [Idx.int 1]) ∧
      IvimFit.perfusion_fraction q =
        (IvimFit.perfusion_fraction c9Arr).bind (fun s => s.index [Idx.int 1]) ∧
      IvimFit.D_star q =
        (IvimFit.D_star c9Arr).bind (fun s => s.index [Idx.int 1]) ∧
      IvimFit.D q =
        (IvimFit.D c9Arr).bind (fun s => s.index [Idx.int 1])) := by
  have h := C9_getitem_preserves_param_axis c9Arr 2 1 1 1 [Idx.int 1]
    (by decide) (by decide) (by decide) (by decide)
  exact ⟨by decide, by decide, by decide, h.1, h.2⟩

/-! ### Helper lemmas about clamping, construction and the fit branches -/

theorem whereLower_ge (lo x : ℝ) : lo ≤ whereLower lo x := by
  unfold whereLower
  split
  · exact le_of_lt (by assumption)
  · exact le_refl lo

theorem whereUpper_le (u x : ℝ) : whereUpper (some u) x ≤ u := by
  show (if x < u then x else u) ≤ u
  split
  · exact le_of_lt (by assumption)
  · exact le_refl u

theorem whereUpper_ge (u lo x : ℝ) (hx : lo ≤ x) (hu : lo ≤ u) :
    lo ≤ whereUpper (some u) x := by
  show lo ≤ (if x < u then x else u)
  split
  · exact hx
  · exact hu

theorem clampComp_mem (lo : ℝ) (hi : Option ℝ) (x : ℝ)
    (h : ∀ u : ℝ, hi = some u → lo ≤ u) :
    lo ≤ clampComp lo hi x ∧ ∀ u : ℝ, hi = some u → clampComp lo hi x ≤ u := by
  cases hi with
  | none =>
    refine ⟨?_, ?_⟩
    · exact whereLower_ge lo x
    · intro u hu
      cases hu
  | some u =>
    refine ⟨?_, ?_⟩
    · exact whereUpper_ge u lo (whereLower lo x) (whereLower_ge lo x) (h u rfl)
    · intro v hv
      obtain rfl : u = v := by injection hv
      exact whereUpper_le u (whereLower lo x)

theorem clampB_inBounds (bp : BoundsPair) (x0 : Fin 4 → ℝ)
    (h : ∀ i : Fin 4, ∀ u : ℝ, bp.hi i = some u → bp.lo i ≤ u) :
    inBounds bp (clampB bp x0) :=
  fun i => clampComp_mem (bp.lo i) (bp.hi i) (x0 i) (h i)

theorem defaultBounds_lo_le_hi :
    ∀ i : Fin 4, ∀ u : ℝ, defaultBounds.hi i = some u → defaultBounds.lo i ≤ u := by
  intro i u hu
  fin_cases i <;> simp [defaultBounds] at hu ⊢ <;> rw [← hu] <;> norm_num

theorem init_ok_iff (gtab : GradientTable) (sb : ℝ) (meth : String)
    (bnds : Option BoundsPair) (tol : ℝ) (m : IvimModel) :
    IvimModel.init gtab sb meth bnds tol = .ok m ↔
      (gtab.b0s_mask.any id = true ∧
       m = { gtab := gtab, split_b := sb, bounds := some defaultBounds,
             tol := tol, method := meth }) := by
  unfold IvimModel.init
  cases h : gtab.b0s_mask.any id <;> simp [h, eq_comm]

theorem fit_one_stage_eq (m : IvimModel) (s1 : Solver1) (s4 : Solver4)
    (data : List ℝ) (x0 : Fin 4 → ℝ) (hx : m.stagedX0 s1 data = .ok x0)
    (hm : m.method = "one_stage") :
    m.fit s1 s4 data = .ok x0 := by
  unfold IvimModel.fit
  rw [hx]
  simp [hm]

theorem fit_two_stage_eq (m : IvimModel) (s1 : Solver1) (s4 : Solver4)
    (data : List ℝ) (x0 : Fin 4 → ℝ) (hx : m.stagedX0 s1 data = .ok x0)
    (hm : m.method ≠ "one_stage") :
    m.fit s1 s4 data =
      .ok (m.leastsq s4 data (clampB (m.bounds.getD boundsCheckDefault) x0)) := by
  unfold IvimModel.fit
  rw [hx]
  simp [hm]

theorem fit_error_eq (m : IvimModel) (s1 : Solver1) (s4 : Solver4)
    (data : List ℝ) (e : FitError) (hx : m.stagedX0 s1 data = .error e) :
    m.fit s1 s4 data = .error e := by
  unfold IvimModel.fit
  rw [hx]
  rfl

theorem polyfit1_error (x y : List ℝ) (h : x.length < 2) :
    polyfit1 x y = .error .underdetermined := by
  unfold polyfit1
  simp [h]

theorem polyfit1_ok_of_two_le (x y : List ℝ) (h : 2 ≤ x.length) :
    ∃ si : ℝ × ℝ, polyfit1 x y = .ok si := by
  unfold polyfit1
  simp [Nat.not_lt.mpr h]

/-! ### List evaluation helpers -/

theorem filter_keep_last_two {α : Type} (p : α → Bool) (a b c d : α)
    (ha : p a = false) (hb : p b = false) (hc : p c = true) (hd : p d = true) :
    List.filter p [a, b, c, d] = [c, d] := by
  simp [List.filter, ha, hb, hc, hd]

theorem filter_keep_first_two {α : Type} (p : α → Bool) (a b c d : α)
    (ha : p a = true) (hb : p b = true) (hc : p c = false) (hd : p d = false) :
    List.filter p [a, b, c, d] = [a, b] := by
  simp [List.filter, ha, hb, hc, hd]

theorem zipWith_getElem?_eq {α β γ : Type} (f : α → β → γ) :
    ∀ (l1 : List α) (l2 : List β) (i : Nat) (a : α) (b : β),
      l1[i]? = some a → l2[i]? = some b →
      (List.zipWith f l1 l2)[i]? = some (f a b)
  | [], _, _, _, _ => by
    intro h _
    simp at h
  | _ :: _, [], _, _, _ => by
    intro _ h
    simp at h
  | x :: xs, y :: ys, 0, a, b => by
    intro h1 h2
    simp_all
  | x :: xs, y :: ys, i + 1, a, b => by
    intro h1 h2
    simp only [List.getElem?_cons_succ] at h1 h2
    simpa using zipWith_getElem?_eq f xs ys i a b h1 h2

theorem zip_filter_fst_length (p : ℝ → Bool) :
    ∀ (bs ds : List ℝ), ds.length = bs.length →
      ((bs.zip ds).filter (fun q => p q.1)).length = (bs.filter p).length := by
  intro bs
  induction bs with
  | nil =>
    intro ds h
    simp
  | cons b bs ih =>
    intro ds h
    cases ds with
    | nil => simp at h
    | cons d ds =>
      simp only [List.length_cons] at h
      have h2 : ds.length = bs.length := by omega
      have ih2 := ih ds h2
      simp only [List.zip] at ih2
      simp only [List.zip_cons_cons, List.filter]
      cases hpb : p b <;> simp [hpb, ih2]


/-! ### Evaluating the staged initializer on concrete signals -/

theorem estHi_gtabW (m : IvimModel) (hg : m.gtab = gtabW) (hs : m.split_b = 200)
    (d1 d2 d3 d4 : ℝ) :
    m.estimate_S0_prime_D [d1, d2, d3, d4] =
      (polyfit1 [300, 400] [-Real.log d3, -Real.log d4]).bind
        (fun res => .ok (Real.exp (-res.2), res.1)) := by
  unfold IvimModel.estimate_S0_prime_D
  rw [hg, hs]
  have hzip : gtabW.bvals.zip [d1, d2, d3, d4] =
      [((0:ℝ), d1), (100, d2), (300, d3), (400, d4)] := rfl
  rw [hzip, filter_keep_last_two (fun p : ℝ × ℝ => decide ((200:ℝ) ≤ p.1))
    ((0:ℝ), d1) (100, d2) (300, d3) (400, d4)
    (decide_eq_false (by norm_num)) (decide_eq_false (by norm_num))
    (decide_eq_true (by norm_num)) (decide_eq_true (by norm_num))]
  rfl

theorem estLo_gtabW (m : IvimModel) (hg : m.gtab = gtabW) (hs : m.split_b = 200)
    (d1 d2 d3 d4 : ℝ) :
    m.estimate_S0_D_star_prime [d1, d2, d3, d4] =
      (polyfit1 [0, 100] [-Real.log d1, -Real.log d2]).bind
        (fun res => .ok (Real.exp (-res.2), res.1)) := by
  unfold IvimModel.estimate_S0_D_star_prime
  rw [hg, hs]
  have hzip : gtabW.bvals.zip [d1, d2, d3, d4] =
      [((0:ℝ), d1), (100, d2), (300, d3), (400, d4)] := rfl
  rw [hzip, filter_keep_first_two (fun p : ℝ × ℝ => decide (p.1 < (200:ℝ)))
    ((0:ℝ), d1) (100, d2) (300, d3) (400, d4)
    (decide_eq_true (by norm_num)) (decide_eq_true (by norm_num))
    (decide_eq_false (by norm_num)) (decide_eq_false (by norm_num))]
  rfl

theorem polyfit_hi00 : polyfit1 [(300:ℝ), 400] [0, 0] = .ok (0, 0) := by
  rw [polyfit1]
  norm_num [List.zip_cons_cons, List.sum_cons, List.sum_nil, List.map_cons,
    List.map_nil, List.length_cons, List.length_nil]

theorem polyfit_lo00 : polyfit1 [(0:ℝ), 100] [0, 0] = .ok (0, 0) := by
  rw [polyfit1]
  norm_num [List.zip_cons_cons, List.sum_cons, List.sum_nil, List.map_cons,
    List.map_nil, List.length_cons, List.length_nil]

theorem polyfit_hi_neg3 : polyfit1 [(300:ℝ), 400] [-3, -3] = .ok (0, -3) := by
  rw [polyfit1]
  norm_num [List.zip_cons_cons, List.sum_cons, List.sum_nil, List.map_cons,
    List.map_nil, List.length_cons, List.length_nil]

theorem polyfit_hi_d3 :
    polyfit1 [(300:ℝ), 400] [0, 3 / 10] = .ok (3 / 1000, -(9 / 10)) := by
  rw [polyfit1]
  norm_num [List.zip_cons_cons, List.sum_cons, List.sum_nil, List.map_cons,
    List.map_nil, List.length_cons, List.length_nil]

theorem estHi_dataOnes (m : IvimModel) (hg : m.gtab = gtabW)
    (hs : m.split_b = 200) : m.estimate_S0_prime_D dataOnes = .ok (1, 0) := by
  rw [show dataOnes = [(1:ℝ), 1, 1, 1] from rfl, estHi_gtabW m hg hs 1 1 1 1]
  simp only [Real.log_one, neg_zero]
  rw [polyfit_hi00]
  show Except.ok (Real.exp (-(0:ℝ)), (0:ℝ)) = Except.ok ((1:ℝ), (0:ℝ))
  norm_num [Real.exp_zero]

theorem estLo_dataOnes (m : IvimModel) (hg : m.gtab = gtabW)
    (hs : m.split_b = 200) : m.estimate_S0_D_star_prime dataOnes = .ok (1, 0) := by
  rw [show dataOnes = [(1:ℝ), 1, 1, 1] from rfl, estLo_gtabW m hg hs 1 1 1 1]
  simp only [Real.log_one, neg_zero]
  rw [polyfit_lo00]
  show Except.ok (Real.exp (-(0:ℝ)), (0:ℝ)) = Except.ok ((1:ℝ), (0:ℝ))
  norm_num [Real.exp_zero]

theorem estHi_dataNegF (m : IvimModel) (hg : m.gtab = gtabW)
    (hs : m.split_b = 200) :
    m.estimate_S0_prime_D dataNegF = .ok (Real.exp 3, 0) := by
  rw [show dataNegF = [(1:ℝ), 1, Real.exp 3, Real.exp 3] from rfl,
    estHi_gtabW m hg hs 1 1 (Real.exp 3) (Real.exp 3)]
  simp only [Real.log_exp]
  rw [polyfit_hi_neg3]
  show Except.ok (Real.exp (-(-3:ℝ)), (0:ℝ)) = Except.ok (Real.exp 3, (0:ℝ))
  norm_num

theorem estLo_dataNegF (m : IvimModel) (hg : m.gtab = gtabW)
    (hs : m.split_b = 200) :
    m.estimate_S0_D_star_prime dataNegF = .ok (1, 0) := by
  rw [show dataNegF = [(1:ℝ), 1, Real.exp 3, Real.exp 3] from rfl,
    estLo_gtabW m hg hs 1 1 (Real.exp 3) (Real.exp 3)]
  simp only [Real.log_one, neg_zero]
  rw [polyfit_lo00]
  show Except.ok (Real.exp (-(0:ℝ)), (0:ℝ)) = Except.ok ((1:ℝ), (0:ℝ))
  norm_num [Real.exp_zero]

theorem estHi_dataD3 (m : IvimModel) (hg : m.gtab = gtabW)
    (hs : m.split_b = 200) :
    m.estimate_S0_prime_D dataD3 = .ok (Real.exp (9 / 10), 3 / 1000) := by
  rw [show dataD3 = [(1:ℝ), 1, 1, Real.exp (-(3 / 10))] from rfl,
    estHi_gtabW m hg hs 1 1 1 (Real.exp (-(3 / 10)))]
  simp only [Real.log_one, Real.log_exp, neg_zero, neg_neg]
  rw [polyfit_hi_d3]
  show Except.ok (Real.exp (-(-(9 / 10):ℝ)), ((3:ℝ) / 1000)) =
    Except.ok (Real.exp (9 / 10), ((3:ℝ) / 1000))
  norm_num

theorem estLo_dataD3 (m : IvimModel) (hg : m.gtab = gtabW)
    (hs : m.split_b = 200) :
    m.estimate_S0_D_star_prime dataD3 = .ok (1, 0) := by
  rw [show dataD3 = [(1:ℝ), 1, 1, Real.exp (-(3 / 10))] from rfl,
    estLo_gtabW m hg hs 1 1 1 (Real.exp (-(3 / 10)))]
  simp only [Real.log_one, neg_zero]
  rw [polyfit_lo00]
  show Except.ok (Real.exp (-(0:ℝ)), (0:ℝ)) = Except.ok ((1:ℝ), (0:ℝ))
  norm_num [Real.exp_zero]

theorem one_lt_exp_pos (x : ℝ) (hx : 0 < x) : (1:ℝ) < Real.exp x := by
  calc (1:ℝ) = Real.exp 0 := (Real.exp_zero).symm
  _ < Real.exp x := Real.exp_lt_exp.mpr hx

theorem stagedX0_dataOnes (m : IvimModel) (hg : m.gtab = gtabW)
    (hs : m.split_b = 200) :
    m.stagedX0 trivialSolver1 dataOnes = .ok onesParams := by
  unfold IvimModel.stagedX0
  rw [estHi_dataOnes m hg hs, estLo_dataOnes m hg hs]
  have hv : (![(1:ℝ), 1 - 1 / 1, 0, 0] : Fin 4 → ℝ) = onesParams := by
    funext i
    fin_cases i <;> norm_num [onesParams]
  exact congrArg Except.ok hv

theorem stagedX0_dataNegF (m : IvimModel) (hg : m.gtab = gtabW)
    (hs : m.split_b = 200) :
    m.stagedX0 trivialSolver1 dataNegF = .ok negFParams := by
  unfold IvimModel.stagedX0
  rw [estHi_dataNegF m hg hs, estLo_dataNegF m hg hs]
  have hv : (![(1:ℝ), 1 - Real.exp 3 / 1, 0, 0] : Fin 4 → ℝ) = negFParams := by
    funext i
    fin_cases i <;> norm_num [negFParams]
  exact congrArg Except.ok hv

theorem stagedX0_dataD3 (m : IvimModel) (hg : m.gtab = gtabW)
    (hs : m.split_b = 200) :
    m.stagedX0 trivialSolver1 dataD3 = .ok d3X0 := by
  unfold IvimModel.stagedX0
  rw [estHi_dataD3 m hg hs, estLo_dataD3 m hg hs]
  have hv : (![(1:ℝ), 1 - Real.exp (9 / 10) / 1, 0, 3 / 1000] : Fin 4 → ℝ) = d3X0 := by
    funext i
    fin_cases i <;> norm_num [d3X0]
  exact congrArg Except.ok hv

/-! ### Evaluating the clamp on concrete vectors -/

theorem whereLower_eq_of_le (lo x : ℝ) (h : lo ≤ x) : whereLower lo x = x := by
  unfold whereLower
  split
  · rfl
  · exact le_antisymm h (not_lt.mp (by assumption))

theorem whereLower_eq_lo_of_le (lo x : ℝ) (h : x ≤ lo) : whereLower lo x = lo := by
  unfold whereLower
  split
  · exact absurd (by assumption) (not_lt.mpr h)
  · rfl

theorem whereUpper_eq_of_lt (u x : ℝ) (h : x < u) : whereUpper (some u) x = x := by
  show (if x < u then x else u) = x
  rw [if_pos h]

theorem clampB_low_vec (f D : ℝ) (hf : f ≤ 0) (hD0 : 0 ≤ D) (hD : D < 0.005) :
    clampB defaultBounds ![1, f, 0, D] = ![1, 0, 0, D] := by
  funext i
  fin_cases i
  · show clampComp 0 none 1 = 1
    unfold clampComp
    rw [show whereUpper none (whereLower 0 1) = whereLower 0 1 from rfl,
      whereLower_eq_of_le 0 1 (by norm_num)]
  · show clampComp 0 (some 1) f = 0
    unfold clampComp
    rw [whereLower_eq_lo_of_le 0 f hf, whereUpper_eq_of_lt 1 0 (by norm_num)]
  · show clampComp 0 (some 0.05) 0 = 0
    unfold clampComp
    rw [whereLower_eq_of_le 0 0 (by norm_num),
      whereUpper_eq_of_lt (0.05) 0 (by norm_num)]
  · show clampComp 0 (some 0.005) D = D
    unfold clampComp
    rw [whereLower_eq_of_le 0 D hD0, whereUpper_eq_of_lt (0.005) D hD]

/-! ### Evaluating `fit` on the concrete inputs -/

theorem fit_mOne_dataNegF :
    mOne.fit trivialSolver1 echoSolver4 dataNegF = .ok negFParams :=
  fit_one_stage_eq mOne trivialSolver1 echoSolver4 dataNegF negFParams
    (stagedX0_dataNegF mOne rfl rfl) rfl

theorem clampB_onesParams : clampB defaultBounds onesParams = onesParams :=
  clampB_low_vec 0 0 le_rfl le_rfl (by norm_num)

theorem fit_mTwo_dataOnes :
    mTwo.fit trivialSolver1 echoSolver4 dataOnes = .ok onesParams := by
  rw [fit_two_stage_eq mTwo trivialSolver1 echoSolver4 dataOnes onesParams
    (stagedX0_dataOnes mTwo rfl rfl) (by decide)]
  exact congrArg Except.ok clampB_onesParams

theorem clampB_d3X0 : clampB defaultBounds d3X0 = d3Params := by
  have h1 : (1:ℝ) < Real.exp (9 / 10) := one_lt_exp_pos (9 / 10) (by norm_num)
  exact clampB_low_vec (1 - Real.exp (9 / 10)) 0.003 (by linarith)
    (by norm_num) (by norm_num)

theorem fit_mTwo_dataD3 :
    mTwo.fit trivialSolver1 echoSolver4 dataD3 = .ok d3Params := by
  rw [fit_two_stage_eq mTwo trivialSolver1 echoSolver4 dataD3 d3X0
    (stagedX0_dataD3 mTwo rfl rfl) (by decide)]
  exact congrArg Except.ok clampB_d3X0

/-! ### Claims C1-C4: the fit orchestrator -/

/-- C1 (amended): in `IvimModel.fit`, the staged initializer's `x0` is
clamped elementwise into the bounds-check interval and refined by the
solver only in the two-stage branch; when the method is `'one_stage'`,
`fit` returns the UNCLAMPED `x0` directly (the `np.where` clamp lines sit
in the `else` branch and are never executed in that case). -/
theorem C1_one_stage_returns_unclamped (m : IvimModel) (s1 : Solver1)
    (s4 : Solver4) (data : List ℝ) (x0 : Fin 4 → ℝ)
    (hx : m.stagedX0 s1 data = .ok x0) :
    (m.method = "one_stage" → m.fit s1 s4 data = .ok x0) ∧
    (m.method ≠ "one_stage" →
      m.fit s1 s4 data =
        .ok (m.leastsq s4 data
          (clampB (m.bounds.getD boundsCheckDefault) x0))) :=
  ⟨fun hm => fit_one_stage_eq m s1 s4 data x0 hx hm,
   fun hm => fit_two_stage_eq m s1 s4 data x0 hx hm⟩

/-- C1 witness: on a four-point constant signal, the one-stage model
returns `x0` itself. -/
theorem C1_one_stage_returns_unclamped_witness :
    mOne.stagedX0 trivialSolver1 dataOnes = .ok onesParams ∧
    (mOne.method = "one_stage" →
      mOne.fit trivialSolver1 echoSolver4 dataOnes = .ok onesParams) ∧
    (mOne.method ≠ "one_stage" →
      mOne.fit trivialSolver1 echoSolver4 dataOnes =
        .ok (mOne.leastsq echoSolver4 dataOnes
          (clampB (mOne.bounds.getD boundsCheckDefault) onesParams))) := by
  have hs := stagedX0_dataOnes mOne rfl rfl
  have h := C1_one_stage_returns_unclamped mOne trivialSolver1 echoSolver4
    dataOnes onesParams hs
  exact ⟨hs, h.1, h.2⟩

/-- C1 counterexample: for a constructed one-stage model and the signal
`dataNegF`, `fit` returns a parameter vector whose `f` component
`1 - exp 3` lies strictly below the lower bound 0, and clamping that
component (under the stored bounds or the hardcoded envelope — both give
f-interval [0, 1]) would change it.  So the value returned by the
one-stage branch is not the clamped `x0`, refuting the claim. -/
theorem C1_counterexample :
    IvimModel.init gtabW 200 "one_stage" none 1 = .ok mOne ∧
    mOne.fit trivialSolver1 echoSolver4 dataNegF = .ok negFParams ∧
    negFParams 1 < defaultBounds.lo 1 ∧
    clampComp (defaultBounds.lo 1) (defaultBounds.hi 1) (negFParams 1) ≠
      negFParams 1 ∧
    clampComp (boundsCheckDefault.lo 1) (boundsCheckDefault.hi 1)
      (negFParams 1) ≠ negFParams 1 := by
  have hexp : (1:ℝ) < Real.exp 3 := one_lt_exp_pos 3 (by norm_num)
  have hneg : negFParams 1 < 0 := by
    show (1:ℝ) - Real.exp 3 < 0
    linarith
  have hclamp : clampComp 0 (some 1) (negFParams 1) = 0 := by
    unfold clampComp
    rw [whereLower_eq_lo_of_le 0 (negFParams 1) (le_of_lt hneg),
      whereUpper_eq_of_lt 1 0 (by norm_num)]
  refine ⟨rfl, fit_mOne_dataNegF, hneg, ?_, ?_⟩
  · have h0 : clampComp (defaultBounds.lo 1) (defaultBounds.hi 1)
        (negFParams 1) = 0 := hclamp
    rw [h0]
    exact ne_of_gt hneg
  · have h0 : clampComp (boundsCheckDefault.lo 1) (boundsCheckDefault.hi 1)
        (negFParams 1) = 0 := hclamp
    rw [h0]
    exact ne_of_gt hneg

/-- C2 (amended): for a constructed model whose method is not
`'one_stage'` (i.e. the default two-stage path), every parameter vector
returned by `fit` lies within the stored default bounds, inclusive
(clamping makes the initial guess feasible and the bounded solver —
modelled from the spec — keeps its output in the bounds).  Under
`'one_stage'` the invariant fails, see the counterexample. -/
theorem C2_two_stage_bounds_invariant (gtab : GradientTable) (sb : ℝ)
    (meth : String) (bnds : Option BoundsPair) (tol : ℝ) (m : IvimModel)
    (s1 : Solver1) (s4 : Solver4) (data : List ℝ) (p : Fin 4 → ℝ)
    (hinit : IvimModel.init gtab sb meth bnds tol = .ok m)
    (hm : m.method ≠ "one_stage")
    (hfit : m.fit s1 s4 data = .ok p) :
    inBounds defaultBounds p := by
  have hb : m.bounds = some defaultBounds := by
    obtain ⟨-, hm2⟩ := (init_ok_iff gtab sb meth bnds tol m).mp hinit
    rw [hm2]
  cases hx : m.stagedX0 s1 data with
  | error e =>
    rw [fit_error_eq m s1 s4 data e hx] at hfit
    exact absurd hfit (by simp)
  | ok x0 =>
    rw [fit_two_stage_eq m s1 s4 data x0 hx hm, hb] at hfit
    simp only [Option.getD_some] at hfit
    have hp : m.leastsq s4 data (clampB defaultBounds x0) = p := by
      injection hfit
    rw [← hp]
    unfold IvimModel.leastsq
    rw [hb]
    exact s4.solve_mem _ _ defaultBounds
      (clampB_inBounds defaultBounds x0 defaultBounds_lo_le_hi)

/-- C2 witness: the two-stage model on a constant signal returns
`(1, 0, 0, 0)`, which is within the default bounds. -/
theorem C2_two_stage_bounds_invariant_witness :
    IvimModel.init gtabW 200 "two_stage" none 1 = .ok mTwo ∧
    mTwo.method ≠ "one_stage" ∧
    mTwo.fit trivialSolver1 echoSolver4 dataOnes = .ok onesParams ∧
    inBounds defaultBounds onesParams :=
  ⟨rfl, by decide, fit_mTwo_dataOnes,
   C2_two_stage_bounds_invariant gtabW 200 "two_stage" none 1 mTwo
     trivialSolver1 echoSolver4 dataOnes onesParams rfl (by decide)
     fit_mTwo_dataOnes⟩

/-- C2 counterexample: under method `'one_stage'` (an accepted method),
`fit` on `dataNegF` returns a vector whose `f` component is `1 - exp 3 < 0`,
violating the lower bound 0 of the model's stored bounds.  The bounds
invariant therefore does not hold for every accepted method. -/
theorem C2_counterexample :
    IvimModel.init gtabW 200 "one_stage" none 1 = .ok mOne ∧
    mOne.bounds = some defaultBounds ∧
    mOne.fit trivialSolver1 echoSolver4 dataNegF = .ok negFParams ∧
    ¬ inBounds defaultBounds negFParams := by
  refine ⟨rfl, rfl, fit_mOne_dataNegF, ?_⟩
  intro h
  have hexp : (1:ℝ) < Real.exp 3 := one_lt_exp_pos 3 (by norm_num)
  have h1 : (0:ℝ) ≤ 1 - Real.exp 3 := (h 1).1
  linarith

/-- C3 (amended): for every fit call on a constructed model (two-stage
path), the clamp interval `bounds_check` is the model's stored bounds —
always the default solver bounds with `D_star ≤ 0.05` and `D ≤ 0.005` —
because `self.bounds` is never `None` after construction.  The tighter
hardcoded envelope (`D_star ≤ 0.01`, `D ≤ 0.001`) sits only in the dead
`self.bounds is None` branch and is never the clamp interval. -/
theorem C3_clamp_uses_stored_solver_bounds (gtab : GradientTable) (sb : ℝ)
    (meth : String) (bnds : Option BoundsPair) (tol : ℝ) (m : IvimModel)
    (s1 : Solver1) (s4 : Solver4) (data : List ℝ) (x0 : Fin 4 → ℝ)
    (hinit : IvimModel.init gtab sb meth bnds tol = .ok m)
    (hm : m.method ≠ "one_stage") (hx : m.stagedX0 s1 data = .ok x0) :
    m.fit s1 s4 data = .ok (m.leastsq s4 data (clampB defaultBounds x0)) ∧
    defaultBounds.hi 2 = some 0.05 ∧ defaultBounds.hi 3 = some 0.005 ∧
    boundsCheckDefault.hi 2 = some 0.01 ∧
    boundsCheckDefault.hi 3 = some 0.001 := by
  have hb : m.bounds = some defaultBounds := by
    obtain ⟨-, hm2⟩ := (init_ok_iff gtab sb meth bnds tol m).mp hinit
    rw [hm2]
  refine ⟨?_, rfl, rfl, rfl, rfl⟩
  rw [fit_two_stage_eq m s1 s4 data x0 hx hm, hb]
  rfl

/-- C3 witness: concrete two-stage fit where the clamp interval is the
stored default bounds. -/
theorem C3_clamp_uses_stored_solver_bounds_witness :
    IvimModel.init gtabW 200 "two_stage" none 1 = .ok mTwo ∧
    mTwo.method ≠ "one_stage" ∧
    mTwo.stagedX0 trivialSolver1 dataOnes = .ok onesParams ∧
    (mTwo.fit trivialSolver1 echoSolver4 dataOnes =
      .ok (mTwo.leastsq echoSolver4 dataOnes
        (clampB defaultBounds onesParams)) ∧
     defaultBounds.hi 2 = some 0.05 ∧ defaultBounds.hi 3 = some 0.005 ∧
     boundsCheckDefault.hi 2 = some 0.01 ∧
     boundsCheckDefault.hi 3 = some 0.001) := by
  have hs := stagedX0_dataOnes mTwo rfl rfl
  exact ⟨rfl, by decide, hs,
    C3_clamp_uses_stored_solver_bounds gtabW 200 "two_stage" none 1 mTwo
      trivialSolver1 echoSolver4 dataOnes onesParams rfl (by decide) hs⟩

/-- C3 counterexample: on `dataD3` the staged `x0` has `D = 0.003`.  The
two-stage fit (with the echo solver exposing the clamped `x0`) returns
`D = 0.003`, strictly above the hardcoded envelope's upper bound `0.001`;
clamping into the tight envelope would have produced `0.001`.  Hence the
clamp interval is NOT the tight envelope. -/
theorem C3_counterexample :
    IvimModel.init gtabW 200 "two_stage" none 1 = .ok mTwo ∧
    mTwo.fit trivialSolver1 echoSolver4 dataD3 = .ok d3Params ∧
    boundsCheckDefault.hi 3 = some 0.001 ∧
    (0.001 : ℝ) < d3Params 3 ∧
    clampComp (boundsCheckDefault.lo 3) (boundsCheckDefault.hi 3)
      (d3Params 3) = 0.001 := by
  refine ⟨rfl, fit_mTwo_dataD3, rfl, ?_, ?_⟩
  · show (0.001:ℝ) < 0.003
    norm_num
  · show clampComp 0 (some 0.001) (0.003:ℝ) = 0.001
    unfold clampComp
    rw [whereLower_eq_of_le 0 0.003 (by norm_num)]
    show (if (0.003:ℝ) < 0.001 then (0.003:ℝ) else 0.001) = 0.001
    rw [if_neg (by norm_num)]

/-- C4: after a successful construction (bounded least-squares available,
`SCIPY_LESS_0_17` false), the stored bounds are always the default pair
`([0,0,0,0], [inf, 1, 0.05, 0.005])`, regardless of the `bounds`
argument passed to the constructor. -/
theorem C4_bounds_always_default (gtab : GradientTable) (sb : ℝ)
    (meth : String) (bnds : Option BoundsPair) (tol : ℝ) (m : IvimModel)
    (hinit : IvimModel.init gtab sb meth bnds tol = .ok m) :
    m.bounds = some defaultBounds := by
  obtain ⟨-, hm⟩ := (init_ok_iff gtab sb meth bnds tol m).mp hinit
  rw [hm]

/-- C4 witness: constructing with custom bounds still stores the default
pair. -/
theorem C4_bounds_always_default_witness :
    IvimModel.init gtabW 200 "two_stage" (some customBounds) 1 = .ok mTwo ∧
    mTwo.bounds = some defaultBounds :=
  ⟨rfl, C4_bounds_always_default gtabW 200 "two_stage" (some customBounds) 1
    mTwo rfl⟩

/-! ### Claims C6 and C7: error handling -/

/-- C6: if fewer than 2 measurements have their b-value on one side of the
split threshold (strictly below it, or at/above it), the per-voxel fit
fails with the under-determined-regression error instead of returning a
parameter vector.  (The degree-1 regression collaborator, numpy's
`polyfit`, is external; it is modelled from the spec interface, which
requires paired sequences of length ≥ 2 and a fitting error otherwise.) -/
theorem C6_underdetermined_regression_fails (m : IvimModel) (s1 : Solver1)
    (s4 : Solver4) (data : List ℝ)
    (hlen : data.length = m.gtab.bvals.length)
    (hside :
      (m.gtab.bvals.filter (fun b => decide (m.split_b ≤ b))).length < 2 ∨
      (m.gtab.bvals.filter (fun b => decide (b < m.split_b))).length < 2) :
    m.fit s1 s4 data = .error .underdetermined := by
  by_cases hhi :
      (m.gtab.bvals.filter (fun b => decide (m.split_b ≤ b))).length < 2
  · have hxlen :
        (((m.gtab.bvals.zip data).filter
          (fun q => decide (m.split_b ≤ q.1))).map Prod.fst).length < 2 := by
      rw [List.length_map,
        zip_filter_fst_length (fun b => decide (m.split_b ≤ b))
          m.gtab.bvals data hlen]
      exact hhi
    have hx : m.estimate_S0_prime_D data = .error .underdetermined := by
      unfold IvimModel.estimate_S0_prime_D
      rw [polyfit1_error _ _ hxlen]
      rfl
    have hst : m.stagedX0 s1 data = .error .underdetermined := by
      unfold IvimModel.stagedX0
      rw [hx]
      rfl
    exact fit_error_eq m s1 s4 data _ hst
  · have hlo :
        (m.gtab.bvals.filter (fun b => decide (b < m.split_b))).length < 2 := by
      rcases hside with h | h
      · exact absurd h hhi
      · exact h
    have hxlen2 :
        2 ≤ (((m.gtab.bvals.zip data).filter
          (fun q => decide (m.split_b ≤ q.1))).map Prod.fst).length := by
      rw [List.length_map,
        zip_filter_fst_length (fun b => decide (m.split_b ≤ b))
          m.gtab.bvals data hlen]
      omega
    obtain ⟨si, hsi⟩ := polyfit1_ok_of_two_le _
      (((m.gtab.bvals.zip data).filter
        (fun q => decide (m.split_b ≤ q.1))).map (fun p => -Real.log p.2))
      hxlen2
    have hx1 : m.estimate_S0_prime_D data = .ok (Real.exp (-si.2), si.1) := by
      unfold IvimModel.estimate_S0_prime_D
      rw [hsi]
      rfl
    have hylen :
        (((m.gtab.bvals.zip data).filter
          (fun q => decide (q.1 < m.split_b))).map Prod.fst).length < 2 := by
      rw [List.length_map,
        zip_filter_fst_length (fun b => decide (b < m.split_b))
          m.gtab.bvals data hlen]
      exact hlo
    have hx2 : m.estimate_S0_D_star_prime data = .error .underdetermined := by
      unfold IvimModel.estimate_S0_D_star_prime
      rw [polyfit1_error _ _ hylen]
      rfl
    have hst : m.stagedX0 s1 data = .error .underdetermined := by
      unfold IvimModel.stagedX0
      rw [hx1]
      simp only [hx2]
      rfl
    exact fit_error_eq m s1 s4 data _ hst

/-- C6 witness: with b-values `[0, 300, 400]` only one measurement lies
below the split 200, and the fit fails with the under-determined error. -/
theorem C6_underdetermined_regression_fails_witness :
    dataThree.length = mLow1.gtab.bvals.length ∧
    ((mLow1.gtab.bvals.filter
        (fun b => decide (mLow1.split_b ≤ b))).length < 2 ∨
     (mLow1.gtab.bvals.filter
        (fun b => decide (b < mLow1.split_b))).length < 2) ∧
    mLow1.fit trivialSolver1 echoSolver4 dataThree = .error .underdetermined := by
  have hlen : dataThree.length = mLow1.gtab.bvals.length := rfl
  have hev : mLow1.gtab.bvals.filter (fun b => decide (b < mLow1.split_b)) =
      [(0:ℝ)] := by
    show List.filter (fun b => decide (b < (200:ℝ))) [(0:ℝ), 300, 400] = [(0:ℝ)]
    simp [List.filter, decide_eq_true (show (0:ℝ) < 200 by norm_num),
      decide_eq_false (show ¬ (300:ℝ) < 200 by norm_num),
      decide_eq_false (show ¬ (400:ℝ) < 200 by norm_num)]
  have hside :
      (mLow1.gtab.bvals.filter
        (fun b => decide (b < mLow1.split_b))).length < 2 := by
    rw [hev]
    norm_num
  exact ⟨hlen, Or.inr hside,
    C6_underdetermined_regression_fails mLow1 trivialSolver1 echoSolver4
      dataThree hlen (Or.inr hside)⟩

/-- C7: constructing an `IvimModel` from a gradient table with no b0
measurement raises the configuration `ValueError` immediately (the check
is the first statement of `__init__`, before any fit machinery); with at
least one b0 measurement the construction succeeds and in particular does
not raise this error. -/
theorem C7_no_b0_raises (gtab : GradientTable) (sb : ℝ) (meth : String)
    (bnds : Option BoundsPair) (tol : ℝ) :
    (gtab.b0s_mask.any id = false →
      IvimModel.init gtab sb meth bnds tol = .error noB0Message) ∧
    (gtab.b0s_mask.any id = true →
      IvimModel.init gtab sb meth bnds tol =
        .ok { gtab := gtab, split_b := sb, bounds := some defaultBounds,
              tol := tol, method := meth }) := by
  constructor <;> intro h <;> unfold IvimModel.init <;> simp [h]

/-- C7 witness: a gradient table without b0 is rejected; one with b0 is
accepted. -/
theorem C7_no_b0_raises_witness :
    gtabNoB0.b0s_mask.any id = false ∧
    IvimModel.init gtabNoB0 200 "two_stage" none 1 = .error noB0Message ∧
    gtabW.b0s_mask.any id = true ∧
    IvimModel.init gtabW 200 "two_stage" none 1 =
      .ok { gtab := gtabW, split_b := 200, bounds := some defaultBounds,
            tol := 1, method := "two_stage" } :=
  ⟨rfl, (C7_no_b0_raises gtabNoB0 200 "two_stage" none 1).1 rfl, rfl,
   (C7_no_b0_raises gtabW 200 "two_stage" none 1).2 rfl⟩

/-! ### Claims C8 and C10: the signal model and residual -/

/-- C8: `ivim_prediction` returns, at each b-value, exactly
`S0 * (f * exp(-b * D_star) + (1 - f) * exp(-b * D))`, and `_ivim_error`
returns the observed signal minus this prediction, elementwise, as a
vector of the same length as the signal. -/
theorem C8_prediction_and_residual (params : Fin 4 → ℝ) (gtab : GradientTable)
    (signal : List ℝ) (hlen : signal.length = gtab.bvals.length) :
    (∀ (i : Nat) (b : ℝ), gtab.bvals[i]? = some b →
      (ivim_prediction params gtab)[i]? =
        some (params 0 * (params 1 * Real.exp (-b * params 2) +
          (1 - params 1) * Real.exp (-b * params 3)))) ∧
    (ivim_error params gtab signal).length = signal.length ∧
    (∀ (i : Nat) (s p : ℝ), signal[i]? = some s →
      (ivim_prediction params gtab)[i]? = some p →
      (ivim_error params gtab signal)[i]? = some (s - p)) := by
  refine ⟨?_, ?_, ?_⟩
  · intro i b hb
    unfold ivim_prediction
    rw [List.getElem?_map, hb]
    rfl
  · unfold ivim_error ivim_prediction
    simp [List.length_zipWith, List.length_map, hlen]
  · intro i s p hs hp
    unfold ivim_error
    exact zipWith_getElem?_eq _ signal _ i s p hs hp

/-- C8 witness: the prediction/residual contract instantiated on the
constant signal over `gtabW`. -/
theorem C8_prediction_and_residual_witness :
    dataOnes.length = gtabW.bvals.length ∧
    ((∀ (i : Nat) (b : ℝ), gtabW.bvals[i]? = some b →
      (ivim_prediction onesParams gtabW)[i]? =
        some (onesParams 0 * (onesParams 1 * Real.exp (-b * onesParams 2) +
          (1 - onesParams 1) * Real.exp (-b * onesParams 3)))) ∧
     (ivim_error onesParams gtabW dataOnes).length = dataOnes.length ∧
     (∀ (i : Nat) (s p : ℝ), dataOnes[i]? = some s →
       (ivim_prediction onesParams gtabW)[i]? = some p →
       (ivim_error onesParams gtabW dataOnes)[i]? = some (s - p))) :=
  ⟨rfl, C8_prediction_and_residual onesParams gtabW dataOnes rfl⟩

/-- C10: with `f = 0` the prediction reduces to the pure mono-exponential
decay `S0 * exp(-b * D)` at every b-value, independent of `D_star`. -/
theorem C10_f_zero_is_monoexponential (S0 Ds Ds2 D : ℝ) (gtab : GradientTable) :
    ivim_prediction ![S0, 0, Ds, D] gtab =
      gtab.bvals.map (fun b => S0 * Real.exp (-b * D)) ∧
    ivim_prediction ![S0, 0, Ds, D] gtab =
      ivim_prediction ![S0, 0, Ds2, D] gtab := by
  have key : ∀ Ds0 : ℝ, ivim_prediction ![S0, 0, Ds0, D] gtab =
      gtab.bvals.map (fun b => S0 * Real.exp (-b * D)) := by
    intro Ds0
    unfold ivim_prediction
    refine List.map_congr_left ?_
    intro b _
    show S0 * ((0:ℝ) * Real.exp (-b * Ds0) + (1 - 0) * Real.exp (-b * D)) =
      S0 * Real.exp (-b * D)
    ring
  exact ⟨key Ds, (key Ds).trans (key Ds2).symm⟩
